import Mathlib

/-!
Verification of `bin/tg_tools.py`, a command-line wrapper around an external
messaging-client library (Telethon).  The script has four commands
(`login`, `dialogs`, `tail`, `search`) plus a credential loader
(`get_client`).  We embed the script shallowly:

* the process environment after `load_dotenv` is an `Env` of two optional
  strings;
* every call into the external client library is an oracle response stored
  in a `World`; fallible calls carry an `Option String` error slot
  (`none` = the call succeeds, `some e` = the call raises an exception
  whose `str()` is `e`);
* each command function returns the trace of network calls it performed
  together with either the list of printed stdout lines or the error that
  terminated it (`Err.systemExit` for `raise SystemExit`, `Err.libError`
  for a propagated library exception, `Err.valueError` for Python's
  `int()` failure).

Python truthiness of optional strings (`None` and `""` are falsy) is
modelled by `pyFalsy`; Python's `a or b` on such values by `pyOr`; the
f-string rendering of a possibly-`None` value by `pyStr`.
-/

/-- Truthiness of a Python value that is either `None` or a string:
`None` and the empty string are falsy. -/
def pyFalsy (o : Option String) : Bool :=
  match o with
  | none => true
  | some s => s == ""

/-- Python `a or b` where `a`, `b` are `None`-or-string values: yields `b`
when `a` is falsy, otherwise `a`. -/
def pyOr (a b : Option String) : Option String :=
  if pyFalsy a then b else a

/-- Rendering of a `None`-or-string value inside an f-string:
`str(None) = "None"`, a string renders as itself. -/
def pyStr (o : Option String) : String :=
  match o with
  | none => "None"
  | some s => s

/-- Python `(x or "")` for a `None`-or-string `x`: both falsy cases
(`None` and `""`) collapse to `""`. -/
def pyOrEmpty (o : Option String) : String :=
  match o with
  | none => ""
  | some s => s

/-- Python `str()` of a value that is either `None` or an `int`
(used for `str(getattr(m, "chat_id", None))`). -/
def pyStrInt (o : Option Int) : String :=
  match o with
  | none => "None"
  | some n => toString n

/-- Whether one character list starts with another. -/
def startsWithChars : List Char → List Char → Bool
  | _, [] => true
  | [], _ :: _ => false
  | a :: as, b :: bs => a == b && startsWithChars as bs

/-- Whether `needle` occurs as a contiguous run inside the second list. -/
def containsChars (needle : List Char) : List Char → Bool
  | [] => needle == []
  | c :: rest => startsWithChars (c :: rest) needle || containsChars needle rest

/-- Python's `needle in hay` substring test. -/
def pyInStr (needle hay : String) : Bool :=
  containsChars needle.data hay.data

/-- Python `s.strip()`: drop whitespace from both ends. -/
def pyStrip (s : String) : String :=
  ⟨((s.data.dropWhile Char.isWhitespace).reverse.dropWhile Char.isWhitespace).reverse⟩

/-- Python `s.lower()`, character-wise. -/
def pyLower (s : String) : String :=
  ⟨s.data.map Char.toLower⟩

/-- Numeric value of a run of decimal digit characters. -/
def digitsVal (l : List Char) : Nat :=
  l.foldl (fun acc c => acc * 10 + (c.toNat - 48)) 0

/-- The six ASCII whitespace characters Python strips around an integer
literal: space, tab, newline, carriage return, vertical tab, form feed. -/
def pyWhitespaceAscii (c : Char) : Bool :=
  c = ' ' || c = '\t' || c = '\n' || c = '\r' || c.toNat = 11 || c.toNat = 12

/-- The characters of `s` with surrounding ASCII whitespace removed, as
`int()` does before parsing. -/
def stripIntChars (s : String) : List Char :=
  ((s.data.dropWhile pyWhitespaceAscii).reverse.dropWhile pyWhitespaceAscii).reverse

/-- A non-empty run of decimal digits with optional single underscores
strictly between digits (PEP 515 grouping): `1_000` is accepted,
`_1`, `1_`, `1__0` and the empty run are not. -/
def groupedDigits : List Char → Bool
  | [] => false
  | [c] => c.isDigit
  | c :: '_' :: rest => c.isDigit && groupedDigits rest
  | c :: d :: rest => c.isDigit && groupedDigits (d :: rest)

/-- Python `int(s)` on an ASCII string: optional surrounding ASCII
whitespace, an optional sign, then underscore-grouped decimal digits
(PEP 515); `none` models the `ValueError` raised on any other ASCII
input.  Python additionally accepts non-ASCII decimal digits and Unicode
whitespace; those inputs lie outside this ASCII model, so theorems about
the failure of `int()` restrict themselves to ASCII strings. -/
def pyIntParse (s : String) : Option Int :=
  match stripIntChars s with
  | [] => none
  | c :: rest =>
    if c = '-' then
      if groupedDigits rest
      then some (-(digitsVal (rest.filter (fun d => d ≠ '_')) : Int)) else none
    else if c = '+' then
      if groupedDigits rest
      then some ((digitsVal (rest.filter (fun d => d ≠ '_')) : Int)) else none
    else
      if groupedDigits (c :: rest)
      then some ((digitsVal ((c :: rest).filter (fun d => d ≠ '_')) : Int)) else none

/-- Python `s.replace("\n", " ")`: for a one-character pattern and
one-character replacement this is the character-wise substitution of
every newline by a single space. -/
def collapseNewlines (s : String) : String :=
  ⟨s.data.map (fun c => if c = '\n' then ' ' else c)⟩

/-- Rendering of a message timestamp, `m.date.isoformat()` in the source.
The external `datetime.isoformat` is modelled as an abstract rendering of
the (integer) timestamp; no claim inspects its text. -/
def isoformat (d : Int) : String :=
  toString d

/-- The process environment after `load_dotenv(ENV_PATH)`: the two secret
keys the script reads.  A key can be absent (`none`) or present with any
string value (possibly empty). -/
structure Env where
  TG_API_ID : Option String
  TG_API_HASH : Option String
deriving DecidableEq

/-- How an invocation terminates abnormally: `raise SystemExit(msg)` in
the script, a propagated exception of the client library, or the
`ValueError` of `int()`. -/
inductive Err where
  | systemExit (msg : String)
  | libError (msg : String)
  | valueError (msg : String)
deriving DecidableEq

/-- The client handle returned by `TelegramClient(SESSION_PATH, int(api_id), api_hash)`. -/
structure TelegramClient where
  session : String
  api_id : Int
  api_hash : String
deriving DecidableEq

/-- `SESSION_PATH = str(BASE / "telethon")`. -/
def SESSION_PATH : String := "/opt/openclaw/secret/telethon"

/-- The message of the `SystemExit` raised on missing credentials. -/
def missingKeysMsg : String :=
  "Missing TG_API_ID/TG_API_HASH (check /opt/openclaw/secret/tg.env)"

/-- `get_client()`: reads `TG_API_ID` / `TG_API_HASH` from the environment,
raises `SystemExit` when either is falsy, then builds the client with
`int(api_id)` (which raises `ValueError` on a non-integer string). -/
def get_client (env : Env) : Except Err TelegramClient :=
  let api_id := env.TG_API_ID
  let api_hash := env.TG_API_HASH
  if pyFalsy api_id || pyFalsy api_hash then
    Except.error (Err.systemExit missingKeysMsg)
  else
    match pyIntParse (pyOrEmpty api_id) with
    | none =>
        Except.error (Err.valueError
          ("invalid literal for int() with base 10: " ++ pyOrEmpty api_id))
    | some n => Except.ok ⟨SESSION_PATH, n, pyOrEmpty api_hash⟩

/-- The result of `client.get_me()`: the authenticated identity. -/
structure Me where
  id : Int
  username : Option String
deriving DecidableEq

/-- A chat/user/channel entity as seen through `getattr` in the script:
the three attributes the label fallback inspects, each possibly absent. -/
structure Entity where
  title : Option String
  username : Option String
  first_name : Option String
deriving DecidableEq

/-- One dialog returned by `client.get_dialogs`. -/
structure Dialog where
  id : Int
  entity : Entity
deriving DecidableEq

/-- Decidable equality for `Except`, needed to evaluate concrete worlds. -/
instance exceptDecEq {ε α : Type} [DecidableEq ε] [DecidableEq α] :
    DecidableEq (Except ε α) := fun a b =>
  match a, b with
  | Except.ok x, Except.ok y =>
      if h : x = y then isTrue (by rw [h])
      else isFalse (by intro hc; cases hc; exact h rfl)
  | Except.error x, Except.error y =>
      if h : x = y then isTrue (by rw [h])
      else isFalse (by intro hc; cases hc; exact h rfl)
  | Except.ok _, Except.error _ => isFalse (by intro hc; cases hc)
  | Except.error _, Except.ok _ => isFalse (by intro hc; cases hc)

/-- One message returned by `get_messages` / `iter_messages`: body text
(`None` or a string), timestamp, the raw `chat_id` attribute (possibly
absent), and the outcome of `await m.get_chat()` (the resolved entity, or
the `str()` of the exception the lookup raises). -/
structure Message where
  message : Option String
  date : Int
  chat_id : Option Int
  get_chat : Except String Entity
deriving DecidableEq

/-- Network calls the script can issue, recorded in order. -/
inductive NetCall where
  | connect
  | is_user_authorized
  | send_code_request (phone : String)
  | sign_in_code (phone code : String)
  | sign_in_password
  | get_me
  | get_dialogs (limit : Nat)
  | get_entity (chat : String)
  | get_messages (limit : Nat)
  | iter_messages (query : String) (limit : Nat)
deriving DecidableEq

/-- Oracle for one invocation: the environment plus the responses the
external library and the interactive prompts would give.  `dialogs` is the
service's full most-recent-first conversation listing (so
`get_dialogs(limit)` returns its first `limit` elements); `messages` and
`search_results` are the lists the respective upstream calls return, in
the upstream's order. -/
structure World where
  env : Env
  is_user_authorized : Bool
  input_code : String
  input_password : String
  send_code_err : Option String
  sign_in_code_err : Option String
  sign_in_password_err : Option String
  get_me_err : Option String
  me : Me
  dialogs_err : Option String
  dialogs : List Dialog
  entity_err : Option String
  messages_err : Option String
  messages : List Message
  iter_err : Option String
  search_results : List Message
deriving DecidableEq

/-- Label choice in `cmd_dialogs` (line 65 of the source):
`getattr(ent, "title", None) or getattr(ent, "username", None) or getattr(ent, "first_name", None)`. -/
def dialogLabel (e : Entity) : Option String :=
  pyOr e.title (pyOr e.username e.first_name)

/-- Label choice in `cmd_search` (line 88 of the source), textually the
same expression applied to the chat returned by `m.get_chat()`. -/
def searchChatLabel (c : Entity) : Option String :=
  pyOr c.title (pyOr c.username c.first_name)

/-- Spec-side label: the first of title, username, first name (in that
order) that is present and non-empty; written from the spec's words, to be
compared with the code's `pyOr` chains. -/
def firstNonEmptyLabel (e : Entity) : Option String :=
  if pyFalsy e.title = false then e.title
  else if pyFalsy e.username = false then e.username
  else if pyFalsy e.first_name = false then e.first_name
  else none

/-- One output line of `cmd_dialogs`: `f"{d.id}\t{title}"`. -/
def dialogLine (d : Dialog) : String :=
  toString d.id ++ "\t" ++ pyStr (dialogLabel d.entity)

/-- Message body rendering shared by `tail` and `search`:
`(m.message or "").replace("\n", " ")`. -/
def renderText (body : Option String) : String :=
  collapseNewlines (pyOrEmpty body)

/-- One output line of `cmd_tail`: `f"[{m.date.isoformat()}] {text}"`. -/
def tailLine (m : Message) : String :=
  "[" ++ isoformat m.date ++ "] " ++ renderText m.message

/-- The chat label printed by `cmd_search` for one result: the label of
the resolved chat when `m.get_chat()` succeeds, otherwise
`str(getattr(m, "chat_id", None))`. -/
def searchLabelOf (m : Message) : String :=
  match m.get_chat with
  | Except.ok c => pyStr (searchChatLabel c)
  | Except.error _ => pyStrInt m.chat_id

/-- One output line of `cmd_search`: `f"[{m.date.isoformat()}] in {chat}: {text}"`. -/
def searchLine (m : Message) : String :=
  "[" ++ isoformat m.date ++ "] in " ++ searchLabelOf m ++ ": " ++ renderText m.message

/-- The `SystemExit` message of first-time login without `--phone`. -/
def loginUsageMsg : String :=
  "First-time login requires --phone +<countrycode><number>"

/-- The line printed on successful login:
`f"Logged in as: {me.id} @{getattr(me, 'username', None)}"`. -/
def loginLine (me : Me) : String :=
  "Logged in as: " ++ toString me.id ++ " @" ++ pyStr me.username

/-- Tail of `cmd_login` once sign-in is settled: `me = await client.get_me()`
and the final print. -/
def loginFinish (w : World) (calls : List NetCall) :
    List NetCall × Except Err (List String) :=
  match w.get_me_err with
  | some e => (calls ++ [NetCall.get_me], Except.error (Err.libError e))
  | none => (calls ++ [NetCall.get_me], Except.ok [loginLine w.me])

/-- `cmd_login(args)`.  Mirrors the source: build the client, connect,
check authorization; on an unauthorized session require `--phone`, request
a code, read it, sign in; if sign-in raises an exception whose message
contains `"password"` case-insensitively, prompt for the 2FA password and
retry `sign_in(password=pwd)`, otherwise re-raise; finally `get_me` and
print the identity. -/
def cmd_login (phone : Option String) (w : World) :
    List NetCall × Except Err (List String) :=
  match get_client w.env with
  | Except.error e => ([], Except.error e)
  | Except.ok _client =>
    if w.is_user_authorized = false then
      if pyFalsy phone then
        ([NetCall.connect, NetCall.is_user_authorized],
         Except.error (Err.systemExit loginUsageMsg))
      else
        let p := pyOrEmpty phone
        match w.send_code_err with
        | some e =>
            ([NetCall.connect, NetCall.is_user_authorized,
              NetCall.send_code_request p],
             Except.error (Err.libError e))
        | none =>
          let code := pyStrip w.input_code
          match w.sign_in_code_err with
          | none =>
              loginFinish w
                [NetCall.connect, NetCall.is_user_authorized,
                 NetCall.send_code_request p, NetCall.sign_in_code p code]
          | some e =>
            if pyInStr "password" (pyLower e) then
              match w.sign_in_password_err with
              | some e2 =>
                  ([NetCall.connect, NetCall.is_user_authorized,
                    NetCall.send_code_request p, NetCall.sign_in_code p code,
                    NetCall.sign_in_password],
                   Except.error (Err.libError e2))
              | none =>
                  loginFinish w
                    [NetCall.connect, NetCall.is_user_authorized,
                     NetCall.send_code_request p, NetCall.sign_in_code p code,
                     NetCall.sign_in_password]
            else
              ([NetCall.connect, NetCall.is_user_authorized,
                NetCall.send_code_request p, NetCall.sign_in_code p code],
               Except.error (Err.libError e))
    else
      loginFinish w [NetCall.connect, NetCall.is_user_authorized]

/-- `cmd_dialogs(args)`: build the client, connect, `get_dialogs(limit)`,
print `f"{d.id}\t{title}"` per dialog in the order returned.  The external
`get_dialogs(limit)` yields the first `limit` conversations of the
service's most-recent-first listing `w.dialogs`. -/
def cmd_dialogs (limit : Nat) (w : World) :
    List NetCall × Except Err (List String) :=
  match get_client w.env with
  | Except.error e => ([], Except.error e)
  | Except.ok _client =>
    match w.dialogs_err with
    | some e =>
        ([NetCall.connect, NetCall.get_dialogs limit],
         Except.error (Err.libError e))
    | none =>
        ([NetCall.connect, NetCall.get_dialogs limit],
         Except.ok ((w.dialogs.take limit).map dialogLine))

/-- `cmd_tail(args)`: build the client, connect, resolve the chat entity,
`get_messages(entity, limit)`, then print the returned messages in
`reversed` order.  `w.messages` is the list the upstream call returns, in
the upstream's own order. -/
def cmd_tail (chat : String) (limit : Nat) (w : World) :
    List NetCall × Except Err (List String) :=
  match get_client w.env with
  | Except.error e => ([], Except.error e)
  | Except.ok _client =>
    match w.entity_err with
    | some e =>
        ([NetCall.connect, NetCall.get_entity chat],
         Except.error (Err.libError e))
    | none =>
      match w.messages_err with
      | some e =>
          ([NetCall.connect, NetCall.get_entity chat, NetCall.get_messages limit],
           Except.error (Err.libError e))
      | none =>
          ([NetCall.connect, NetCall.get_entity chat, NetCall.get_messages limit],
           Except.ok ((w.messages.reverse).map tailLine))

/-- `cmd_search(args)`: build the client, connect, iterate the global
search results, printing one line per result; a failing `m.get_chat()`
lookup is caught per result and replaced by the raw `chat_id` fallback. -/
def cmd_search (query : String) (limit : Nat) (w : World) :
    List NetCall × Except Err (List String) :=
  match get_client w.env with
  | Except.error e => ([], Except.error e)
  | Except.ok _client =>
    match w.iter_err with
    | some e =>
        ([NetCall.connect, NetCall.iter_messages query limit],
         Except.error (Err.libError e))
    | none =>
        ([NetCall.connect, NetCall.iter_messages query limit],
         Except.ok ((w.search_results).map searchLine))

/-! ### Helper lemmas -/

/-- `Nat.toDigitsCore` never shortens its accumulator. -/
theorem toDigitsCore_length_ge (b : Nat) :
    ∀ (f n : Nat) (ds : List Char), ds.length ≤ (Nat.toDigitsCore b f n ds).length := by
  intro f
  induction f with
  | zero => intro n ds; simp [Nat.toDigitsCore]
  | succ f ih =>
    intro n ds
    by_cases h : n / b = 0
    · simp [Nat.toDigitsCore, h]
    · simp only [Nat.toDigitsCore, h, if_false]
      exact le_trans (Nat.le_succ _) (ih (n / b) (Nat.digitChar (n % b) :: ds))

/-- The digit list of a natural number is never empty. -/
theorem toDigits_length_pos (b n : Nat) : 0 < (Nat.toDigits b n).length := by
  unfold Nat.toDigits
  by_cases h : n / b = 0
  · simp [Nat.toDigitsCore, h]
  · have h1 := toDigitsCore_length_ge b n (n / b) [Nat.digitChar (n % b)]
    simp only [List.length_cons, List.length_nil] at h1
    simp only [Nat.toDigitsCore, h, if_false]
    omega

/-- `Nat.repr` never yields the empty string. -/
theorem nat_repr_ne_empty (n : Nat) : Nat.repr n ≠ "" := by
  intro h
  have h2 : (Nat.repr n).data = [] := by rw [h]
  have h3 := toDigits_length_pos 10 n
  unfold Nat.repr at h2
  simp only [List.asString] at h2
  rw [h2] at h3
  simp at h3

/-- `toString` of an integer never yields the empty string. -/
theorem int_toString_ne_empty (n : Int) : toString n ≠ "" := by
  cases n with
  | ofNat m => exact nat_repr_ne_empty m
  | negSucc m =>
    intro h
    have hl : ("-" ++ Nat.repr (Nat.succ m)).length = 0 := by
      rw [show ("-" ++ Nat.repr (Nat.succ m)) = toString (Int.negSucc m) from rfl, h]; rfl
    rw [String.length_append] at hl
    have hone : ("-" : String).length = 1 := by decide
    rw [hone] at hl
    omega

/-! ### Concrete inputs for witnesses and counterexamples -/

/-- An environment holding both secrets with a numeric `TG_API_ID`. -/
def envOK : Env := ⟨some "12345", some "hash"⟩

/-- The client `get_client` builds from `envOK`. -/
def clientOK : TelegramClient := ⟨SESSION_PATH, 12345, "hash"⟩

/-- A default oracle: both secrets present, session authorized, every
library call succeeding, all listings empty. -/
def baseWorld : World :=
  { env := envOK
    is_user_authorized := true
    input_code := " 11111 "
    input_password := "hunter2"
    send_code_err := none
    sign_in_code_err := none
    sign_in_password_err := none
    get_me_err := none
    me := ⟨7, some "alice"⟩
    dialogs_err := none
    dialogs := []
    entity_err := none
    messages_err := none
    messages := []
    iter_err := none
    search_results := [] }

/-- An environment with `TG_API_ID` absent. -/
def envMissing : Env := ⟨none, some "hash"⟩

/-- A world whose environment lacks `TG_API_ID`. -/
def wMissing : World := { baseWorld with env := envMissing }

/-- An environment whose `TG_API_ID` is non-empty but not an integer literal. -/
def envBadId : Env := ⟨some "abc", some "hash"⟩

/-- A world with the non-numeric `TG_API_ID`. -/
def wBadId : World := { baseWorld with env := envBadId }

/-- A world with an unauthorized session. -/
def wUnauth : World := { baseWorld with is_user_authorized := false }

/-- A dialog whose entity has no title, username, or first name. -/
def dNoName : Dialog := ⟨42, ⟨none, none, none⟩⟩

/-- A search result whose chat lookup fails and that has no `chat_id`. -/
def mNoChat : Message := ⟨some "hi", 5, none, Except.error "lookup failed"⟩

/-! ### Claim theorems -/

/-- C4: with either required secret key absent or empty after loading the
configuration file, `get_client` raises `SystemExit` with the descriptive
message, and every command aborts with that error before any network call
(empty trace) and before a client handle is constructed. -/
theorem C4_missing_credentials_abort (w : World)
    (h : pyFalsy w.env.TG_API_ID = true ∨ pyFalsy w.env.TG_API_HASH = true) :
    get_client w.env = Except.error (Err.systemExit missingKeysMsg)
    ∧ (∀ phone, cmd_login phone w = ([], Except.error (Err.systemExit missingKeysMsg)))
    ∧ (∀ limit, cmd_dialogs limit w = ([], Except.error (Err.systemExit missingKeysMsg)))
    ∧ (∀ chat limit, cmd_tail chat limit w = ([], Except.error (Err.systemExit missingKeysMsg)))
    ∧ (∀ q limit, cmd_search q limit w = ([], Except.error (Err.systemExit missingKeysMsg))) := by
  have hg : get_client w.env = Except.error (Err.systemExit missingKeysMsg) := by
    rcases h with h | h <;> simp [get_client, h]
  refine ⟨hg, ?_, ?_, ?_, ?_⟩
  · intro phone; simp [cmd_login, hg]
  · intro limit; simp [cmd_dialogs, hg]
  · intro chat limit; simp [cmd_tail, hg]
  · intro q limit; simp [cmd_search, hg]

/-- C4 witness: the abort at the concrete environment lacking `TG_API_ID`. -/
theorem C4_missing_credentials_abort_witness :
    get_client wMissing.env = Except.error (Err.systemExit missingKeysMsg)
    ∧ (∀ phone, cmd_login phone wMissing = ([], Except.error (Err.systemExit missingKeysMsg)))
    ∧ (∀ limit, cmd_dialogs limit wMissing = ([], Except.error (Err.systemExit missingKeysMsg)))
    ∧ (∀ chat limit, cmd_tail chat limit wMissing = ([], Except.error (Err.systemExit missingKeysMsg)))
    ∧ (∀ q limit, cmd_search q limit wMissing = ([], Except.error (Err.systemExit missingKeysMsg))) :=
  C4_missing_credentials_abort wMissing (Or.inl (by decide))

/-- C8: `login` on an unauthorized session without `--phone` aborts with
the usage `SystemExit`, after exactly the connect and authorization-check
calls and nothing else. -/
theorem C8_login_requires_phone (w : World) (cl : TelegramClient)
    (hc : get_client w.env = Except.ok cl) (hauth : w.is_user_authorized = false) :
    cmd_login none w =
      ([NetCall.connect, NetCall.is_user_authorized],
       Except.error (Err.systemExit loginUsageMsg)) := by
  simp [cmd_login, hc, hauth, pyFalsy]

/-- C8 witness: the usage abort at a concrete unauthorized world. -/
theorem C8_login_requires_phone_witness :
    cmd_login none wUnauth =
      ([NetCall.connect, NetCall.is_user_authorized],
       Except.error (Err.systemExit loginUsageMsg)) :=
  C8_login_requires_phone wUnauth clientOK (by decide) rfl

/-- C9: a non-empty ASCII `TG_API_ID` that is not a valid Python integer
literal (no underscore-grouped digit run after an optional sign and
whitespace) passes the emptiness check but makes `int(api_id)` raise
`ValueError`, so `get_client` fails before any client handle exists and
every command aborts with an empty network trace.  The ASCII hypothesis
keeps the statement inside the fragment where `pyIntParse` coincides
with `int()`. -/
theorem C9_nonnumeric_api_id (w : World) (s : String)
    (hid : w.env.TG_API_ID = some s) (hne : (s == "") = false)
    (hascii : s.data.all (fun c => c.toNat < 128) = true)
    (hparse : pyIntParse s = none) (hhash : pyFalsy w.env.TG_API_HASH = false) :
    get_client w.env =
      Except.error (Err.valueError ("invalid literal for int() with base 10: " ++ s))
    ∧ (∀ phone, cmd_login phone w =
        ([], Except.error (Err.valueError ("invalid literal for int() with base 10: " ++ s))))
    ∧ (∀ limit, cmd_dialogs limit w =
        ([], Except.error (Err.valueError ("invalid literal for int() with base 10: " ++ s))))
    ∧ (∀ chat limit, cmd_tail chat limit w =
        ([], Except.error (Err.valueError ("invalid literal for int() with base 10: " ++ s))))
    ∧ (∀ q limit, cmd_search q limit w =
        ([], Except.error (Err.valueError ("invalid literal for int() with base 10: " ++ s)))) := by
  have hps : pyFalsy (some s) = false := by
    simpa [pyFalsy] using hne
  have hg : get_client w.env =
      Except.error (Err.valueError ("invalid literal for int() with base 10: " ++ s)) := by
    simp [get_client, hid, hps, hhash, pyOrEmpty, hparse]
  refine ⟨hg, ?_, ?_, ?_, ?_⟩
  · intro phone; simp [cmd_login, hg]
  · intro limit; simp [cmd_dialogs, hg]
  · intro chat limit; simp [cmd_tail, hg]
  · intro q limit; simp [cmd_search, hg]

/-- C9 witness: the `ValueError` abort at `TG_API_ID = "abc"`. -/
theorem C9_nonnumeric_api_id_witness :
    get_client wBadId.env =
      Except.error (Err.valueError ("invalid literal for int() with base 10: " ++ "abc"))
    ∧ (∀ phone, cmd_login phone wBadId =
        ([], Except.error (Err.valueError ("invalid literal for int() with base 10: " ++ "abc"))))
    ∧ (∀ limit, cmd_dialogs limit wBadId =
        ([], Except.error (Err.valueError ("invalid literal for int() with base 10: " ++ "abc"))))
    ∧ (∀ chat limit, cmd_tail chat limit wBadId =
        ([], Except.error (Err.valueError ("invalid literal for int() with base 10: " ++ "abc"))))
    ∧ (∀ q limit, cmd_search q limit wBadId =
        ([], Except.error (Err.valueError ("invalid literal for int() with base 10: " ++ "abc")))) :=
  C9_nonnumeric_api_id wBadId "abc" rfl (by decide) (by decide) (by decide) (by decide)

/-- C10: an entity with no title, username, or first name prints with the
literal label `None` in `dialogs`; a search result whose chat lookup fails
and that lacks `chat_id` prints `in None`. -/
theorem C10_none_label (d : Dialog) (m : Message) (e : String)
    (hd : d.entity = ⟨none, none, none⟩)
    (hg : m.get_chat = Except.error e) (hcid : m.chat_id = none) :
    dialogLine d = toString d.id ++ "\t" ++ "None"
    ∧ searchLabelOf m = "None" := by
  constructor
  · simp [dialogLine, hd, dialogLabel, pyOr, pyFalsy, pyStr]
  · simp [searchLabelOf, hg, hcid, pyStrInt]

/-- C10 witness: the `None` labels at concrete inputs. -/
theorem C10_none_label_witness :
    dialogLine dNoName = toString dNoName.id ++ "\t" ++ "None"
    ∧ searchLabelOf mNoChat = "None" :=
  C10_none_label dNoName mNoChat "lookup failed" rfl rfl rfl

/-- C6: the label expression of `cmd_dialogs` and the (textually repeated)
label expression of `cmd_search` agree on every entity, and whenever some
field is present and non-empty both equal the first non-empty of
title, username, first name in that order. -/
theorem C6_label_shared (e : Entity) :
    dialogLabel e = searchChatLabel e
    ∧ (∀ s, firstNonEmptyLabel e = some s → dialogLabel e = some s) := by
  refine ⟨rfl, ?_⟩
  intro s hs
  unfold firstNonEmptyLabel at hs
  unfold dialogLabel pyOr
  by_cases h1 : pyFalsy e.title = true
  · rw [if_pos h1]
    rw [if_neg (by simp [h1])] at hs
    by_cases h2 : pyFalsy e.username = true
    · rw [if_pos h2]
      rw [if_neg (by simp [h2])] at hs
      by_cases h3 : pyFalsy e.first_name = true
      · rw [if_neg (by simp [h3])] at hs
        exact absurd hs (by simp)
      · rw [if_pos (by simpa using h3)] at hs
        exact hs
    · rw [if_neg h2]
      rw [if_pos (by simpa using h2)] at hs
      exact hs
  · rw [if_neg h1]
    rw [if_pos (by simpa using h1)] at hs
    exact hs

/-- C6 witness: shared label at a concrete entity with an empty title and
a username. -/
theorem C6_label_shared_witness :
    dialogLabel ⟨some "", some "bob", some "B"⟩ = searchChatLabel ⟨some "", some "bob", some "B"⟩
    ∧ dialogLabel ⟨some "", some "bob", some "B"⟩ = some "bob" :=
  ⟨(C6_label_shared ⟨some "", some "bob", some "B"⟩).1,
   (C6_label_shared ⟨some "", some "bob", some "B"⟩).2 "bob" (by decide)⟩

/-- C7: the body rendering of `tail` replaces every embedded newline by a
single space (no newline survives, length is preserved, the sample
`"line1\nline2"` prints as `"line1 line2"`), and an absent or empty body
prints as an empty text field after the timestamp. -/
theorem C7_newline_collapse :
    (∀ s : String, '\n' ∉ (renderText (some s)).data)
    ∧ (∀ s : String, (renderText (some s)).length = s.length)
    ∧ renderText (some "line1\nline2") = "line1 line2"
    ∧ renderText none = ""
    ∧ renderText (some "") = ""
    ∧ (∀ m : Message, m.message = none → tailLine m = "[" ++ isoformat m.date ++ "] ") := by
  refine ⟨?_, ?_, by decide, rfl, rfl, ?_⟩
  · intro s
    simp only [renderText, pyOrEmpty, collapseNewlines]
    intro hmem
    rcases List.mem_map.mp hmem with ⟨a, _, ha⟩
    by_cases h : a = '\n'
    · rw [if_pos h] at ha; exact absurd ha (by decide)
    · rw [if_neg h] at ha; exact h ha
  · intro s
    show (s.data.map (fun c => if c = '\n' then ' ' else c)).length = s.data.length
    exact List.length_map _ _
  · intro m hm
    have h0 : renderText none = "" := rfl
    unfold tailLine
    rw [hm, h0, String.append_empty]

/-- C7 witness: the implication branch of C7 at a concrete message with an
absent body, and the no-newline fact at a concrete body. -/
theorem C7_newline_collapse_witness :
    '\n' ∉ (renderText (some "a\nb")).data
    ∧ tailLine ⟨none, 3, none, Except.error "x"⟩ = "[" ++ isoformat (3 : Int) ++ "] " :=
  ⟨C7_newline_collapse.1 "a\nb",
   C7_newline_collapse.2.2.2.2.2 ⟨none, 3, none, Except.error "x"⟩ rfl⟩

/-- A message with the older timestamp. -/
def mOld : Message := ⟨some "a", 1, none, Except.error "x"⟩

/-- A message with the newer timestamp. -/
def mNew : Message := ⟨some "b", 2, none, Except.error "x"⟩

/-- A world whose `get_messages` call returns oldest-first. -/
def wTailAsc : World := { baseWorld with messages := [mOld, mNew] }

/-- A world whose `get_messages` call returns newest-first. -/
def wTailDesc : World := { baseWorld with messages := [mNew, mOld] }

/-- C1 counterexample: when the upstream `get_messages` call returns the
two messages oldest-first (timestamps 1 then 2), `tail` prints them in
strictly decreasing timestamp order — the code only reverses the upstream
list, so the claimed "regardless of the order the upstream call returns
the messages" fails. -/
theorem C1_tail_order_counterexample :
    (cmd_tail "@c" 10 wTailAsc).2 = Except.ok [tailLine mNew, tailLine mOld]
    ∧ ((wTailAsc.messages.reverse).map Message.date) = [2, 1]
    ∧ ¬ List.Chain' (fun a b => a ≤ b) ((wTailAsc.messages.reverse).map Message.date) := by
  have hl : ((wTailAsc.messages.reverse).map Message.date) = [2, 1] := by decide
  refine ⟨by decide, hl, ?_⟩
  rw [hl]
  intro h
  exact absurd (List.chain'_cons.mp h).1 (by decide)

/-- C1 amended: `tail` prints exactly the upstream list reversed, so when
the upstream call returns messages newest-first (non-increasing
timestamps, the external library's convention), the printed lines are in
non-decreasing timestamp order. -/
theorem C1_tail_order (w : World) (chat : String) (limit : Nat) (cl : TelegramClient)
    (hc : get_client w.env = Except.ok cl)
    (hent : w.entity_err = none) (hmsg : w.messages_err = none)
    (hdesc : List.Chain' (fun a b => b ≤ a) (w.messages.map Message.date)) :
    (cmd_tail chat limit w).2 = Except.ok ((w.messages.reverse).map tailLine)
    ∧ List.Chain' (fun a b => a ≤ b) ((w.messages.reverse).map Message.date) := by
  constructor
  · simp [cmd_tail, hc, hent, hmsg]
  · rw [List.map_reverse]
    exact List.chain'_reverse.mpr hdesc

/-- C1 witness: the amended ordering at a concrete newest-first world. -/
theorem C1_tail_order_witness :
    (cmd_tail "@c" 10 wTailDesc).2 = Except.ok ((wTailDesc.messages.reverse).map tailLine)
    ∧ List.Chain' (fun a b => a ≤ b) ((wTailDesc.messages.reverse).map Message.date) :=
  C1_tail_order wTailDesc "@c" 10 clientOK (by decide) rfl rfl
    (by
      have hl : wTailDesc.messages.map Message.date = [2, 1] := by decide
      rw [hl]
      exact List.chain'_cons.mpr ⟨by decide, List.chain'_singleton 1⟩)

/-- A search result whose chat lookup raises and that has a numeric id. -/
def mFallback : Message := ⟨some "hit", 9, some (-42), Except.error "ChannelPrivateError"⟩

/-- A world whose search yields only the fallback result. -/
def wSearch : World := { baseWorld with search_results := [mFallback] }

/-- C2: for a search result whose chat lookup raises, the printed label is
`str()` of the raw numeric conversation id — never empty and never the
error text — and `cmd_search` still prints one line per result (the
exception is recovered per result, not propagated). -/
theorem C2_search_fallback (m : Message) (e : String) (n : Int)
    (herr : m.get_chat = Except.error e) (hid : m.chat_id = some n) :
    searchLabelOf m = toString n
    ∧ searchLabelOf m ≠ ""
    ∧ searchLine m =
        "[" ++ isoformat m.date ++ "] in " ++ toString n ++ ": " ++ renderText m.message
    ∧ (∀ (w : World) (q : String) (l : Nat) (cl : TelegramClient),
         get_client w.env = Except.ok cl → w.iter_err = none →
         (cmd_search q l w).2 = Except.ok (w.search_results.map searchLine)) := by
  have hl : searchLabelOf m = toString n := by
    simp [searchLabelOf, herr, hid, pyStrInt]
  refine ⟨hl, ?_, ?_, ?_⟩
  · rw [hl]; exact int_toString_ne_empty n
  · simp [searchLine, hl]
  · intro w q l cl hc hit
    simp [cmd_search, hc, hit]

/-- C2 witness: the fallback label at a concrete failing lookup. -/
theorem C2_search_fallback_witness :
    searchLabelOf mFallback = toString (-42 : Int)
    ∧ searchLabelOf mFallback ≠ ""
    ∧ searchLine mFallback =
        "[" ++ isoformat mFallback.date ++ "] in " ++ toString (-42 : Int) ++ ": "
          ++ renderText mFallback.message
    ∧ (cmd_search "q" 20 wSearch).2 = Except.ok (wSearch.search_results.map searchLine) := by
  have h := C2_search_fallback mFallback "ChannelPrivateError" (-42) rfl rfl
  exact ⟨h.1, h.2.1, h.2.2.1, h.2.2.2 wSearch "q" 20 clientOK (by decide) rfl⟩

/-- The dialog titled A. -/
def dA : Dialog := ⟨1, ⟨some "A", none, none⟩⟩

/-- The dialog titled B. -/
def dB : Dialog := ⟨2, ⟨some "B", none, none⟩⟩

/-- The dialog titled C. -/
def dC : Dialog := ⟨3, ⟨some "C", none, none⟩⟩

/-- A world whose service holds the three dialogs A, B, C in that order. -/
def wABC : World := { baseWorld with dialogs := [dA, dB, dC] }

/-- C5: `dialogs --limit N` prints one line per returned conversation, as
id, tab, label, in the upstream order, and the number of lines is
`min N T` for a service holding `T` conversations; in the concrete
three-dialog scenario with limit 2 the output is exactly the `A` line then
the `B` line. -/
theorem C5_dialogs_lines (w : World) (limit : Nat) (cl : TelegramClient)
    (hc : get_client w.env = Except.ok cl) (hd : w.dialogs_err = none) :
    (cmd_dialogs limit w).2 = Except.ok ((w.dialogs.take limit).map dialogLine)
    ∧ ((w.dialogs.take limit).map dialogLine).length = min limit w.dialogs.length
    ∧ (cmd_dialogs 2 wABC).2 = Except.ok ["1\tA", "2\tB"] := by
  refine ⟨?_, ?_, by decide⟩
  · simp [cmd_dialogs, hc, hd]
  · simp [List.length_map, List.length_take]

/-- C5 witness: the dialog lines at the concrete three-dialog world. -/
theorem C5_dialogs_lines_witness :
    (cmd_dialogs 2 wABC).2 = Except.ok ((wABC.dialogs.take 2).map dialogLine)
    ∧ ((wABC.dialogs.take 2).map dialogLine).length = min 2 wABC.dialogs.length
    ∧ (cmd_dialogs 2 wABC).2 = Except.ok ["1\tA", "2\tB"] :=
  C5_dialogs_lines wABC 2 clientOK (by decide) rfl

/-- An unauthorized world whose first sign-in fails with a 2FA-style
message (contains "PASSWORD", matched case-insensitively). -/
def w2fa : World :=
  { baseWorld with
      is_user_authorized := false
      sign_in_code_err := some "Two-step verification PASSWORD is needed" }

/-- An unauthorized world whose first sign-in fails with an unrelated
message. -/
def wBadCode : World :=
  { baseWorld with
      is_user_authorized := false
      sign_in_code_err := some "The phone code is invalid" }

/-- A world whose `get_dialogs` call raises. -/
def wDlgErr : World := { baseWorld with dialogs_err := some "FloodWaitError" }

/-- A world whose `get_entity` call raises. -/
def wEntErr : World := { baseWorld with entity_err := some "UsernameNotOccupiedError" }

/-- A world whose `get_messages` call raises. -/
def wMsgErr : World := { baseWorld with messages_err := some "FloodWaitError 2" }

/-- A world whose `iter_messages` call raises. -/
def wIterErr : World := { baseWorld with iter_err := some "FloodWaitError 3" }

/-- An unauthorized world whose `send_code_request` call raises. -/
def wSendErr : World :=
  { baseWorld with
      is_user_authorized := false
      send_code_err := some "PhoneNumberInvalidError" }

/-- C3: in `login`, a failed first sign-in whose message contains
"password" case-insensitively leads to the 2FA password prompt and a
retried sign-in whose outcome alone decides the command; any other
sign-in failure is re-raised unchanged with no password attempt; and
every library failure in the other commands (and in the other `login`
calls) propagates unhandled — the only other recovery being the `search`
label fallback. -/
theorem C3_error_discrimination :
    (∀ (w : World) (p e : String) (cl : TelegramClient),
       get_client w.env = Except.ok cl →
       w.is_user_authorized = false →
       (p == "") = false →
       w.send_code_err = none →
       w.sign_in_code_err = some e →
       (pyInStr "password" (pyLower e) = true →
          cmd_login (some p) w =
            (match w.sign_in_password_err with
             | some e2 =>
                ([NetCall.connect, NetCall.is_user_authorized,
                  NetCall.send_code_request p,
                  NetCall.sign_in_code p (pyStrip w.input_code),
                  NetCall.sign_in_password],
                 Except.error (Err.libError e2))
             | none =>
                loginFinish w
                  [NetCall.connect, NetCall.is_user_authorized,
                   NetCall.send_code_request p,
                   NetCall.sign_in_code p (pyStrip w.input_code),
                   NetCall.sign_in_password]))
       ∧ (pyInStr "password" (pyLower e) = false →
            cmd_login (some p) w =
              ([NetCall.connect, NetCall.is_user_authorized,
                NetCall.send_code_request p,
                NetCall.sign_in_code p (pyStrip w.input_code)],
               Except.error (Err.libError e))))
    ∧ (∀ (w : World) (limit : Nat) (e : String) (cl : TelegramClient),
         get_client w.env = Except.ok cl → w.dialogs_err = some e →
         (cmd_dialogs limit w).2 = Except.error (Err.libError e))
    ∧ (∀ (w : World) (chat : String) (limit : Nat) (e : String) (cl : TelegramClient),
         get_client w.env = Except.ok cl → w.entity_err = some e →
         (cmd_tail chat limit w).2 = Except.error (Err.libError e))
    ∧ (∀ (w : World) (chat : String) (limit : Nat) (e : String) (cl : TelegramClient),
         get_client w.env = Except.ok cl → w.entity_err = none →
         w.messages_err = some e →
         (cmd_tail chat limit w).2 = Except.error (Err.libError e))
    ∧ (∀ (w : World) (q : String) (limit : Nat) (e : String) (cl : TelegramClient),
         get_client w.env = Except.ok cl → w.iter_err = some e →
         (cmd_search q limit w).2 = Except.error (Err.libError e))
    ∧ (∀ (w : World) (p e : String) (cl : TelegramClient),
         get_client w.env = Except.ok cl → w.is_user_authorized = false →
         (p == "") = false → w.send_code_err = some e →
         cmd_login (some p) w =
           ([NetCall.connect, NetCall.is_user_authorized, NetCall.send_code_request p],
            Except.error (Err.libError e))) := by
  refine ⟨?_, ?_, ?_, ?_, ?_, ?_⟩
  · intro w p e cl hc hauth hp hsend hsig
    constructor
    · intro hpw
      simp [cmd_login, hc, hauth, pyFalsy, hp, hsend, hsig, hpw, pyOrEmpty]
    · intro hpw
      simp [cmd_login, hc, hauth, pyFalsy, hp, hsend, hsig, hpw, pyOrEmpty]
  · intro w limit e cl hc hd
    simp [cmd_dialogs, hc, hd]
  · intro w chat limit e cl hc hent
    simp [cmd_tail, hc, hent]
  · intro w chat limit e cl hc hent hmsg
    simp [cmd_tail, hc, hent, hmsg]
  · intro w q limit e cl hc hit
    simp [cmd_search, hc, hit]
  · intro w p e cl hc hauth hp hsend
    simp [cmd_login, hc, hauth, pyFalsy, hp, hsend, pyOrEmpty]

/-- C3 witness: each discrimination branch at a concrete world. -/
theorem C3_error_discrimination_witness :
    cmd_login (some "+15551234567") w2fa =
      ([NetCall.connect, NetCall.is_user_authorized,
        NetCall.send_code_request "+15551234567",
        NetCall.sign_in_code "+15551234567" (pyStrip w2fa.input_code),
        NetCall.sign_in_password, NetCall.get_me],
       Except.ok [loginLine w2fa.me])
    ∧ cmd_login (some "+15551234567") wBadCode =
      ([NetCall.connect, NetCall.is_user_authorized,
        NetCall.send_code_request "+15551234567",
        NetCall.sign_in_code "+15551234567" (pyStrip wBadCode.input_code)],
       Except.error (Err.libError "The phone code is invalid"))
    ∧ (cmd_dialogs 5 wDlgErr).2 = Except.error (Err.libError "FloodWaitError")
    ∧ (cmd_tail "@c" 5 wEntErr).2 = Except.error (Err.libError "UsernameNotOccupiedError")
    ∧ (cmd_tail "@c" 5 wMsgErr).2 = Except.error (Err.libError "FloodWaitError 2")
    ∧ (cmd_search "q" 5 wIterErr).2 = Except.error (Err.libError "FloodWaitError 3")
    ∧ cmd_login (some "+15551234567") wSendErr =
      ([NetCall.connect, NetCall.is_user_authorized,
        NetCall.send_code_request "+15551234567"],
       Except.error (Err.libError "PhoneNumberInvalidError")) := by
  refine ⟨?_, ?_, ?_, ?_, ?_, ?_, ?_⟩
  · have h := ((C3_error_discrimination.1 w2fa "+15551234567"
      "Two-step verification PASSWORD is needed" clientOK
      (by decide) rfl (by decide) rfl rfl).1 (by decide))
    exact h.trans (by decide)
  · have h := ((C3_error_discrimination.1 wBadCode "+15551234567"
      "The phone code is invalid" clientOK
      (by decide) rfl (by decide) rfl rfl).2 (by decide))
    exact h
  · exact C3_error_discrimination.2.1 wDlgErr 5 "FloodWaitError" clientOK (by decide) rfl
  · exact C3_error_discrimination.2.2.1 wEntErr "@c" 5 "UsernameNotOccupiedError" clientOK
      (by decide) rfl
  · exact C3_error_discrimination.2.2.2.1 wMsgErr "@c" 5 "FloodWaitError 2" clientOK
      (by decide) rfl rfl
  · exact C3_error_discrimination.2.2.2.2.1 wIterErr "q" 5 "FloodWaitError 3" clientOK
      (by decide) rfl
  · exact C3_error_discrimination.2.2.2.2.2 wSendErr "+15551234567"
      "PhoneNumberInvalidError" clientOK (by decide) rfl (by decide) rfl
